import Mathlib

set_option maxHeartbeats 1000000

/-!
Shallow embedding of the capacity-accounting subsystem of the admin API
server: the bucket usage scanner (`calculateBucketUsageBytes`), the
row-sample database estimator (`estimateDatabaseUsageFromActivaciones`),
the combined capacity projector (`estimateCombinedActivationCapacity`)
and the `GET /admin/storage/summary` route handler, together with
theorems settling the specification claims about them.

JavaScript numbers are modelled as exact rationals (`ℚ`); `Math.round`
is `⌊q + 1/2⌋`, `Math.floor` is `Int.floor`, and `Number(x).toFixed(2)`
for the values arising here is rounding to two decimal places.  Inputs
that the program only ever supplies as finite numbers or `null` are
modelled as `ℚ` / `Option ℚ` (JavaScript `NaN`/`Infinity` have no
representation in this model; where a hypothesis is needed to stay
inside the represented domain it is stated explicitly).
-/

/-- A JavaScript value as it matters to the size-metadata accessors:
`vnull` is `null`/`undefined` (skipped by the `??` operator), `vnum q` is
a value whose `Number(·)` conversion is the finite number `q`, and `vbad`
is a present (non-nullish) value whose `Number(·)` conversion is not
finite (`NaN`, `Infinity`, a non-numeric string, ...). -/
inductive JsVal where
  | vnull
  | vnum (q : ℚ)
  | vbad
deriving DecidableEq

/-- `Number(v)` restricted to the finite outcomes: `some q` when the
conversion yields the finite number `q`, `none` when it yields a
non-finite number.  `Number(undefined) = NaN` is `none`; `Number(null) = 0`
is only relevant at the one place the source applies `Number` to a value
that can be an explicit `null` (the rpc object branch), handled there. -/
def jsToFiniteNumber : JsVal → Option ℚ
  | .vnum q => some q
  | _ => none

/-- `Math.round` on an exact rational (round half toward positive). -/
def jround (q : ℚ) : ℤ := ⌊q + 1/2⌋

/-- `normalizeText` applied to a string: `value.trim()`, modelled
structurally over the character list (drop whitespace from both ends). -/
def jsTrim (s : String) : String :=
  ⟨((s.data.dropWhile Char.isWhitespace).reverse.dropWhile Char.isWhitespace).reverse⟩

/-- `Number(x.toFixed(2))`: round to two decimal places. -/
def round2 (q : ℚ) : ℚ := ((jround (q * 100) : ℤ) : ℚ) / 100

/-- The `metadata` block of a storage list entry, carrying the candidate
size fields consulted by the scanner (`size`, `contentLength`,
`content_length`). -/
structure StorageMetadata where
  size : JsVal
  contentLength : JsVal
  content_length : JsVal
deriving DecidableEq

/-- One entry returned by `adminSupabase.storage.from(bucket).list(...)`:
a name, an optional object id and an optional metadata block.  The
source classifies an entry as a directory exactly when
`item?.id == null && !item?.metadata`. -/
structure StorageItem where
  name : String
  id : Option String
  metadata : Option StorageMetadata
deriving DecidableEq

/-- The nullish-coalescing chain
`item?.metadata?.size ?? item?.metadata?.contentLength ?? item?.metadata?.content_length`:
the first non-nullish candidate wins, regardless of whether it is numeric. -/
def sizeCandidate : Option StorageMetadata → JsVal
  | none => .vnull
  | some m =>
    match m.size with
    | .vnull =>
      match m.contentLength with
      | .vnull => m.content_length
      | v => v
    | v => v

/-- The bytes a file entry contributes to `totalBytes`:
`const size = Number(sizeCandidate); if (Number.isFinite(size) && size > 0) totalBytes += size`.
(When the whole chain is nullish, `Number` yields `NaN` or `0`, and both
fail the `size > 0` guard, so the contribution is `0` either way.) -/
def itemSizeBytes (meta : Option StorageMetadata) : ℚ :=
  match jsToFiniteNumber (sizeCandidate meta) with
  | some s => if 0 < s then s else 0
  | none => 0

/-- `nextDirectory = currentDirectory ? currentDirectory + "/" + name : name`. -/
def nextDirectoryPath (currentDirectory name : String) : String :=
  if currentDirectory = "" then name else currentDirectory ++ "/" ++ name

/-- The body of the `for (const item of data)` loop of
`calculateBucketUsageBytes`, acting on an accumulator of
(newly enqueued directories, totalBytes added, totalObjects added).
`visited` is the visited-set at the time the directory is being listed
(it is only mutated at dequeue time, so it is constant here). -/
def itemStep (currentDirectory : String) (visited : List String)
    (acc : List String × ℚ × ℕ) (item : StorageItem) : List String × ℚ × ℕ :=
  let name := jsTrim item.name
  if name = "" then acc
  else if item.id.isNone && item.metadata.isNone then
    let nextDirectory := nextDirectoryPath currentDirectory name
    if nextDirectory ∈ visited then acc
    else (acc.1 ++ [nextDirectory], acc.2.1, acc.2.2)
  else if name = ".emptyFolderPlaceholder" then acc
  else (acc.1, acc.2.1 + itemSizeBytes item.metadata, acc.2.2 + 1)

/-- Process all items listed for one directory. -/
def processItems (currentDirectory : String) (visited : List String)
    (items : List StorageItem) : List String × ℚ × ℕ :=
  items.foldl (itemStep currentDirectory visited) ([], 0, 0)

/-- The paginated inner `while (true)` loop of `calculateBucketUsageBytes`:
fetch the slice `[offset, offset+limit)` of the directory's listing, stop
on an empty page, stop after a short page, otherwise advance the offset.
`fuel` is a structural-recursion bound; `collectPages` below instantiates
it large enough that it never runs out. -/
def collectPagesFuel (limit : ℕ) : ℕ → List StorageItem → List StorageItem
  | 0, _ => []
  | fuel + 1, rest =>
    let page := rest.take limit
    if page = [] then []
    else if page.length < limit then page
    else page ++ collectPagesFuel limit fuel (rest.drop limit)

/-- All items of a directory listing, gathered page by page. -/
def collectPages (limit : ℕ) (items : List StorageItem) : List StorageItem :=
  collectPagesFuel limit (items.length + 1) items

/-- The outer `while (directoriesQueue.length > 0)` loop of
`calculateBucketUsageBytes`: dequeue from the front, skip
already-visited directories, otherwise mark visited, list the directory
(paginated) and append the newly discovered directories to the back of
the queue.  `fuel` bounds the number of iterations; the termination
theorem exhibits a sufficient fuel. The first component of the result is
the visited list (most recently processed first). -/
def scanLoop (listing : String → List StorageItem) :
    ℕ → List String → List String → ℚ → ℕ → Option (List String × ℚ × ℕ)
  | _, [], visited, totalBytes, totalObjects => some (visited, totalBytes, totalObjects)
  | 0, _ :: _, _, _, _ => none
  | fuel + 1, currentDirectory :: rest, visited, totalBytes, totalObjects =>
    if currentDirectory ∈ visited then
      scanLoop listing fuel rest visited totalBytes totalObjects
    else
      let step := processItems currentDirectory (currentDirectory :: visited)
        (collectPages 1000 (listing currentDirectory))
      scanLoop listing fuel (rest ++ step.1) (currentDirectory :: visited)
        (totalBytes + step.2.1) (totalObjects + step.2.2)

/-- `calculateBucketUsageBytes`: start from the root (empty path), empty
visited-set, zero totals. -/
def calculateBucketUsageBytes (listing : String → List StorageItem) (fuel : ℕ) :
    Option (List String × ℚ × ℕ) :=
  scanLoop listing fuel [""] [] 0 0

/-- The full directory path of a listed entry when the loop body
classifies it as a directory (non-empty trimmed name, no id, no
metadata); `none` otherwise. -/
def dirEntryPath (currentDirectory : String) (item : StorageItem) : Option String :=
  let name := jsTrim item.name
  if name = "" then none
  else if item.id.isNone && item.metadata.isNone then
    some (nextDirectoryPath currentDirectory name)
  else none

/-- The full directory paths of the directory entries of a listing
(classified exactly as the loop body classifies them). -/
def childDirPaths (currentDirectory : String) (items : List StorageItem) : List String :=
  items.filterMap (dirEntryPath currentDirectory)

/-- The return value of `estimateDatabaseUsageFromActivaciones`.
`estimated_database_remaining_bytes` is a plain number in the source
(`Math.max(0, ...)`), nullable; the degenerate branch returns it without
rounding, the main branch rounds, so the field is modelled as `Option ℚ`
(the main branch always stores an integer value). -/
structure DbEstimate where
  sample_size : ℕ
  overhead_factor : ℚ
  per_activation_estimated_bytes : ℤ
  estimated_database_used_bytes : ℤ
  estimated_database_remaining_bytes : Option ℚ
  estimated_database_usage_percent : Option ℚ
  estimated_activaciones_capacity_total : Option ℤ
  estimated_activaciones_capacity_remaining : Option ℚ
deriving DecidableEq

/-- The zeroed estimate returned by the two degenerate branches of
`estimateDatabaseUsageFromActivaciones` (non-positive count, or empty
sample). -/
def zeroDbEstimate (overheadFactor : ℚ) (databaseLimitBytes : Option ℚ) : DbEstimate :=
  { sample_size := 0
    overhead_factor := overheadFactor
    per_activation_estimated_bytes := 0
    estimated_database_used_bytes := 0
    estimated_database_remaining_bytes := databaseLimitBytes.map (fun l => max 0 l)
    estimated_database_usage_percent := databaseLimitBytes.map (fun _ => 0)
    estimated_activaciones_capacity_total := none
    estimated_activaciones_capacity_remaining := none }

/-- `estimateDatabaseUsageFromActivaciones`.  The sample read against the
`activaciones` table is abstracted as `sampleFetch`: an error models a
failed query (`throw new Error(sampleErr.message)`), a success carries
the byte length of each sampled row's JSON serialization (a row whose
serialization throws contributes `0` bytes, which a caller models by
putting `0` in the list; it still counts toward `rows.length`).
`activacionesCount` is `Number(activacionesCount)` at the call site and
is modelled as an exact rational (non-finite counts, which take the same
degenerate branch as non-positive ones, are outside the model). -/
def estimateDatabaseUsageFromActivaciones (activacionesCount : ℚ)
    (databaseLimitBytes : Option ℚ) (sampleFetch : Except String (List ℕ))
    (overheadFactor : ℚ) : Except String DbEstimate :=
  let normalizedCount := activacionesCount
  if normalizedCount ≤ 0 then
    .ok (zeroDbEstimate overheadFactor databaseLimitBytes)
  else
    match sampleFetch with
    | .error e => .error e
    | .ok rows =>
      if rows = [] then
        .ok (zeroDbEstimate overheadFactor databaseLimitBytes)
      else
        let totalJsonPayloadBytes : ℚ := (List.map (fun n : ℕ => (n : ℚ)) rows).sum
        let averageJsonPayloadBytes := totalJsonPayloadBytes / rows.length
        let perActivationEstimatedBytes : ℤ :=
          max 1 (jround (averageJsonPayloadBytes * overheadFactor))
        let estimatedDatabaseUsedBytes : ℤ :=
          jround ((perActivationEstimatedBytes : ℚ) * normalizedCount)
        let estimatedDatabaseRemainingBytes : Option ℚ :=
          databaseLimitBytes.map fun l =>
            ((max 0 (jround (l - (estimatedDatabaseUsedBytes : ℚ))) : ℤ) : ℚ)
        let estimatedDatabaseUsagePercent : Option ℚ :=
          match databaseLimitBytes with
          | none => none
          | some l =>
            if l ≤ 0 then none
            else some (round2 ((estimatedDatabaseUsedBytes : ℚ) / l * 100))
        let estimatedActivacionesCapacityTotal : Option ℤ :=
          match databaseLimitBytes with
          | none => none
          | some l =>
            if l ≤ 0 then none
            else some (max 0 ⌊l / (perActivationEstimatedBytes : ℚ)⌋)
        let estimatedActivacionesCapacityRemaining : Option ℚ :=
          estimatedActivacionesCapacityTotal.map fun t =>
            max 0 ((t : ℚ) - normalizedCount)
        .ok
          { sample_size := rows.length
            overhead_factor := overheadFactor
            per_activation_estimated_bytes := perActivationEstimatedBytes
            estimated_database_used_bytes := estimatedDatabaseUsedBytes
            estimated_database_remaining_bytes := estimatedDatabaseRemainingBytes
            estimated_database_usage_percent := estimatedDatabaseUsagePercent
            estimated_activaciones_capacity_total := estimatedActivacionesCapacityTotal
            estimated_activaciones_capacity_remaining := estimatedActivacionesCapacityRemaining }

/-- The argument object of `estimateCombinedActivationCapacity`.  The
three counts are always passed as numbers by the route (`?? 0`); the
four byte figures are number-or-null. -/
structure ProjInput where
  activacionesCount : ℚ
  activacionesWithPhotoCount : ℚ
  storageObjectsCount : ℚ
  storageUsedBytes : Option ℚ
  storageRemainingBytes : Option ℚ
  databaseRemainingBytes : Option ℚ
  perActivationDatabaseBytes : Option ℚ
deriving DecidableEq

/-- The return value of `estimateCombinedActivationCapacity`
(`limiting_factor` is the JavaScript string `'storage'` / `'database'`,
or `null` — modelled as `none`). -/
structure CombinedCapacity where
  one_photo_per_activation_assumed : Bool
  activaciones_with_photo_count : ℚ
  photo_coverage_percent : Option ℚ
  sample_photos_count : ℚ
  average_photo_bytes : Option ℤ
  per_activation_database_estimated_bytes : Option ℤ
  per_activation_total_estimated_bytes : Option ℤ
  estimated_activaciones_with_photo_total : Option ℚ
  estimated_activaciones_with_photo_remaining : Option ℤ
  estimated_remaining_by_database : Option ℤ
  estimated_remaining_by_storage : Option ℤ
  limiting_factor : Option String
  unavailable_reason : Option String
deriving DecidableEq

/-- `Number(v)` for a number-or-null argument: `Number(null) = 0`. -/
def jsNum (v : Option ℚ) : ℚ := v.getD 0

/-- `estimateCombinedActivationCapacity`.  For the finite-or-null inputs
the route supplies, `Number.isFinite(Number(x))` always holds (it is `0`
for `null`), so the `: null` fallbacks of the first four normalizations
are unreachable and the normalized byte figures are plain rationals;
`Number(x) || 0` is the identity on finite values.  The per-activation
normalization keeps its `null` branch (`Number(null) = 0` fails `> 0`). -/
def estimateCombinedActivationCapacity (i : ProjInput) : CombinedCapacity :=
  let normalizedActivacionesCount := max 0 i.activacionesCount
  let normalizedActivacionesWithPhotoCount := max 0 i.activacionesWithPhotoCount
  let normalizedStorageObjectsCount := max 0 i.storageObjectsCount
  let normalizedStorageUsedBytes := max 0 (jsNum i.storageUsedBytes)
  let normalizedStorageRemainingBytes := max 0 (jsNum i.storageRemainingBytes)
  let normalizedDatabaseRemainingBytes := max 0 (jsNum i.databaseRemainingBytes)
  let normalizedPerActivationDatabaseBytes : Option ℤ :=
    if 0 < jsNum i.perActivationDatabaseBytes then
      some (jround (jsNum i.perActivationDatabaseBytes))
    else none
  let photoSampleCount :=
    if 0 < normalizedActivacionesWithPhotoCount then normalizedActivacionesWithPhotoCount
    else if 0 < normalizedStorageObjectsCount then normalizedStorageObjectsCount
    else 0
  let averagePhotoBytes : Option ℤ :=
    if 0 < photoSampleCount then
      some (max 1 (jround (normalizedStorageUsedBytes / photoSampleCount)))
    else none
  let remainingByDatabase : Option ℤ :=
    normalizedPerActivationDatabaseBytes.map fun p =>
      max 0 ⌊normalizedDatabaseRemainingBytes / (p : ℚ)⌋
  let remainingByStorage : Option ℤ :=
    averagePhotoBytes.map fun a =>
      max 0 ⌊normalizedStorageRemainingBytes / (a : ℚ)⌋
  let estimatedRemaining : Option ℤ :=
    match remainingByDatabase, remainingByStorage with
    | some d, some s => some (min d s)
    | some d, none => some d
    | none, s => s
  let limitingFactor : Option String :=
    match remainingByDatabase, remainingByStorage with
    | some d, some s => some (if s ≤ d then "storage" else "database")
    | none, some _ => some "storage"
    | some _, none => some "database"
    | none, none => none
  let unavailableReasons : List String :=
    (if averagePhotoBytes = none then
      ["Sin muestra de fotos para calcular promedio."] else []) ++
    (if normalizedPerActivationDatabaseBytes = none then
      ["Sin muestra suficiente para calcular peso de activacion en base de datos."] else [])
  let estimatedTotal : Option ℚ :=
    estimatedRemaining.map fun r =>
      max normalizedActivacionesCount (normalizedActivacionesCount + (r : ℚ))
  let perActivationTotalEstimatedBytes : Option ℤ :=
    match normalizedPerActivationDatabaseBytes, averagePhotoBytes with
    | some p, some a => some (p + a)
    | _, _ => none
  let photoCoveragePercent : Option ℚ :=
    if 0 < normalizedActivacionesCount then
      some (round2 (min normalizedActivacionesWithPhotoCount normalizedActivacionesCount /
        normalizedActivacionesCount * 100))
    else none
  { one_photo_per_activation_assumed := true
    activaciones_with_photo_count := normalizedActivacionesWithPhotoCount
    photo_coverage_percent := photoCoveragePercent
    sample_photos_count := photoSampleCount
    average_photo_bytes := averagePhotoBytes
    per_activation_database_estimated_bytes := normalizedPerActivationDatabaseBytes
    per_activation_total_estimated_bytes := perActivationTotalEstimatedBytes
    estimated_activaciones_with_photo_total := estimatedTotal
    estimated_activaciones_with_photo_remaining := estimatedRemaining
    estimated_remaining_by_database := remainingByDatabase
    estimated_remaining_by_storage := remainingByStorage
    limiting_factor := limitingFactor
    unavailable_reason :=
      if unavailableReasons = [] then none
      else some (String.intercalate " " unavailableReasons) }

/-- `SUPABASE_FREE_PLAN_REFERENCE` (frozen constant). -/
structure PlanReference where
  name : String
  api_requests : String
  monthly_active_users_limit : ℕ
  database_limit_bytes : ℚ
  shared_ram_mb : ℕ
  cpu_tier : String
  egress_limit_bytes : ℚ
  cached_egress_limit_bytes : ℚ
  file_storage_limit_bytes : ℚ
  support : String
deriving DecidableEq

def MB : ℚ := 1024 * 1024

def GB : ℚ := 1024 * MB

def SUPABASE_FREE_PLAN_REFERENCE : PlanReference :=
  { name := "Supabase Free"
    api_requests := "Unlimited API requests"
    monthly_active_users_limit := 50000
    database_limit_bytes := 500 * MB
    shared_ram_mb := 500
    cpu_tier := "shared"
    egress_limit_bytes := 5 * GB
    cached_egress_limit_bytes := 5 * GB
    file_storage_limit_bytes := 1 * GB
    support := "Community support" }

/-- The value `data` returned by the `get_database_size_bytes` rpc, as
discriminated by the route: a (finite) number, a string (represented by
its finite `Number(·)` conversion, `none` when non-finite), a truthy
object carrying the three candidate size keys, or anything else
(including `null`, which fails the `databaseSizeData &&` truthiness
guard of the object branch). -/
inductive RpcData where
  | rnum (q : ℚ)
  | rstr (conversion : Option ℚ)
  | robj (get_database_size_bytes database_size_bytes size_bytes : JsVal)
  | rother
deriving DecidableEq

/-- The candidate chain of the object branch:
`data.get_database_size_bytes ?? data.database_size_bytes ?? data.size_bytes ?? null`. -/
def rpcObjCandidate (a b c : JsVal) : JsVal :=
  match a with
  | .vnull => (match b with | .vnull => c | v => v)
  | v => v

/-- The parsing chain of the route for a successful rpc response: a
number is taken as-is, a string or object candidate is accepted when its
numeric conversion is finite and non-negative.  In the object branch the
chain ends in an explicit `?? null`, and `Number(null) = 0` is finite
and non-negative, so an all-nullish object parses as `0`. -/
def parseDatabaseSize : RpcData → Option ℚ
  | .rnum q => some q
  | .rstr conversion =>
    match conversion with
    | some q => if 0 ≤ q then some q else none
    | none => none
  | .robj a b c =>
    (match rpcObjCandidate a b c with
     | .vnull => some 0
     | .vnum q => if 0 ≤ q then some q else none
     | .vbad => none)
  | .rother => none

/-- Configuration captured by `createAdminApiApp` and read by the
summary route. -/
structure SummaryConfig where
  activacionesBucket : String
  storageLimitBytes : Option ℚ
  databaseLimitBytes : Option ℚ
  storageLimitSource : String
  databaseLimitSource : String
deriving DecidableEq

/-- The outcomes of the five independent backend interactions the
summary route performs, abstracted as values: the two mandatory head
counts (`count` may be `null`), the bucket scan
(`(totalBytes, totalObjects)`; an error models a thrown
`calculateBucketUsageBytes`), the `get_database_size_bytes` rpc and the
row-sample estimator run. -/
structure SummaryBackend where
  activacionesCountRes : Except String (Option ℕ)
  activacionesWithPhotoCountRes : Except String (Option ℕ)
  bucketScanRes : Except String (ℚ × ℕ)
  databaseSizeRpcRes : Except String RpcData
  estimateRes : Except String DbEstimate

/-- A `jsonError(res, status, message, details)` response. -/
structure JsonErrorOut where
  status : ℕ
  message : String
  details : Option String
deriving DecidableEq

/-- The `summary` object of a successful `GET /admin/storage/summary`
response. -/
structure StorageSummary where
  bucket : String
  activaciones_count : ℕ
  activaciones_with_photo_count : ℕ
  storage_objects_count : ℕ
  storage_used_bytes : ℚ
  storage_limit_bytes : Option ℚ
  storage_limit_source : String
  storage_remaining_bytes : Option ℚ
  storage_usage_percent : Option ℚ
  database_size_bytes : Option ℚ
  database_used_effective_bytes : Option ℚ
  database_limit_bytes : Option ℚ
  database_limit_source : String
  database_remaining_bytes : Option ℚ
  database_usage_percent : Option ℚ
  database_size_source : Option String
  database_size_unavailable_reason : Option String
  database_estimation : Option DbEstimate
  database_estimation_unavailable_reason : Option String
  combined_capacity_estimation : CombinedCapacity
  plan_reference : PlanReference
deriving DecidableEq

/-- The `GET /admin/storage/summary` handler: the two mandatory counts
and the bucket scan abort the request on failure (`jsonError` 500); a
failed rpc probe or a thrown estimator run only records a reason and the
summary is still assembled and returned. -/
def storageSummaryHandler (cfg : SummaryConfig) (b : SummaryBackend) :
    Except JsonErrorOut StorageSummary :=
  match b.activacionesCountRes with
  | .error e => .error ⟨500, "No se pudo obtener conteo de activaciones.", some e⟩
  | .ok activacionesCount =>
  match b.activacionesWithPhotoCountRes with
  | .error e => .error ⟨500, "No se pudo obtener conteo de activaciones con foto.", some e⟩
  | .ok activacionesWithPhotoCount =>
  match b.bucketScanRes with
  | .error e => .error ⟨500, "No se pudo calcular uso del bucket de fotos.", some e⟩
  | .ok bucketUsage =>
    let databaseSizeState : Option ℚ × Option String :=
      match b.databaseSizeRpcRes with
      | .error e => (none, some e)
      | .ok data => (parseDatabaseSize data, none)
    let databaseSizeBytes := databaseSizeState.1
    let databaseSizeUnavailableReason := databaseSizeState.2
    let estimationState : Option DbEstimate × Option String :=
      match b.estimateRes with
      | .error e => (none, some e)
      | .ok est => (some est, none)
    let estimatedDatabase := estimationState.1
    let estimationUnavailableReason := estimationState.2
    let storageRemainingBytes : Option ℚ :=
      cfg.storageLimitBytes.map fun l => max 0 (l - bucketUsage.1)
    let storageUsagePercent : Option ℚ :=
      match cfg.storageLimitBytes with
      | none => none
      | some l => if l ≤ 0 then none else some (round2 (bucketUsage.1 / l * 100))
    let effectiveDatabaseUsedBytes : Option ℚ :=
      match databaseSizeBytes with
      | some s => some s
      | none => estimatedDatabase.map fun e => (e.estimated_database_used_bytes : ℚ)
    let databaseRemainingBytes : Option ℚ :=
      match cfg.databaseLimitBytes, effectiveDatabaseUsedBytes with
      | some l, some u => some (max 0 (l - u))
      | _, _ => none
    let databaseUsagePercent : Option ℚ :=
      match cfg.databaseLimitBytes, effectiveDatabaseUsedBytes with
      | some l, some u => if l ≤ 0 then none else some (round2 (u / l * 100))
      | _, _ => none
    let normalizedCount : ℚ := ((activacionesCount.getD 0 : ℕ) : ℚ)
    let perActivationDatabaseBytes : Option ℚ :=
      match estimatedDatabase with
      | some e =>
        if 0 < e.per_activation_estimated_bytes then
          some ((e.per_activation_estimated_bytes : ℤ) : ℚ)
        else
          match effectiveDatabaseUsedBytes with
          | some u =>
            if 0 < normalizedCount then some ((max 1 (jround (u / normalizedCount)) : ℤ) : ℚ)
            else none
          | none => none
      | none =>
        match effectiveDatabaseUsedBytes with
        | some u =>
          if 0 < normalizedCount then some ((max 1 (jround (u / normalizedCount)) : ℤ) : ℚ)
          else none
        | none => none
    let combinedCapacityEstimation := estimateCombinedActivationCapacity
      { activacionesCount := normalizedCount
        activacionesWithPhotoCount := ((activacionesWithPhotoCount.getD 0 : ℕ) : ℚ)
        storageObjectsCount := ((bucketUsage.2 : ℕ) : ℚ)
        storageUsedBytes := some bucketUsage.1
        storageRemainingBytes := storageRemainingBytes
        databaseRemainingBytes := databaseRemainingBytes
        perActivationDatabaseBytes := perActivationDatabaseBytes }
    .ok
      { bucket := cfg.activacionesBucket
        activaciones_count := activacionesCount.getD 0
        activaciones_with_photo_count := activacionesWithPhotoCount.getD 0
        storage_objects_count := bucketUsage.2
        storage_used_bytes := bucketUsage.1
        storage_limit_bytes := cfg.storageLimitBytes
        storage_limit_source := cfg.storageLimitSource
        storage_remaining_bytes := storageRemainingBytes
        storage_usage_percent := storageUsagePercent
        database_size_bytes := databaseSizeBytes
        database_used_effective_bytes := effectiveDatabaseUsedBytes
        database_limit_bytes := cfg.databaseLimitBytes
        database_limit_source := cfg.databaseLimitSource
        database_remaining_bytes := databaseRemainingBytes
        database_usage_percent := databaseUsagePercent
        database_size_source :=
          match databaseSizeBytes with
          | none =>
            (match estimatedDatabase with
             | some _ => some "estimate:activaciones_avg_row"
             | none => none)
          | some _ => some "rpc:get_database_size_bytes"
        database_size_unavailable_reason :=
          match databaseSizeBytes with
          | none => databaseSizeUnavailableReason
          | some _ => none
        database_estimation := estimatedDatabase
        database_estimation_unavailable_reason :=
          match estimatedDatabase with
          | none => estimationUnavailableReason
          | some _ => none
        combined_capacity_estimation := combinedCapacityEstimation
        plan_reference := SUPABASE_FREE_PLAN_REFERENCE }

/-- The weight a directory contributes to the scan's termination
measure: one for the dequeue of the directory itself, plus one for each
directory entry its listing may enqueue. -/
def dirWeight (listing : String → List StorageItem) (d : String) : ℕ :=
  1 + (childDirPaths d (listing d)).length

/-- Termination measure for `scanLoop`: the queue length plus the
weights of the not-yet-visited directories of the finite universe
`insert "" U`. -/
def scanPotential (listing : String → List StorageItem) (U : Finset String)
    (queue visited : List String) : ℕ :=
  queue.length + Finset.sum ((insert "" U) \ visited.toFinset) (dirWeight listing)

/-- The all-null projector input of the degradation scenario: every
optional argument `null` and all three counts `0`. -/
def projNullInput : ProjInput :=
  { activacionesCount := 0
    activacionesWithPhotoCount := 0
    storageObjectsCount := 0
    storageUsedBytes := none
    storageRemainingBytes := none
    databaseRemainingBytes := none
    perActivationDatabaseBytes := none }

/-- A small concrete bucket whose root listing reports the same
directory entry twice, used as a witness listing: the scan must still
terminate and process `"a"` only once. -/
def listingW : String → List StorageItem := fun d =>
  if d = "" then
    [{ name := "a", id := none, metadata := none },
     { name := "a", id := none, metadata := none }]
  else if d = "a" then
    [{ name := "f.jpg", id := some "object-1",
       metadata := some { size := .vnum 10, contentLength := .vnull, content_length := .vnull } }]
  else []

/-- A one-file bucket whose file's `size` metadata holds a non-numeric
value while `contentLength` holds `100`. -/
def listingC3 : String → List StorageItem := fun d =>
  if d = "" then
    [{ name := "photo.jpg", id := some "object-1",
       metadata := some { size := .vbad, contentLength := .vnum 100, content_length := .vnull } }]
  else []

/-- A concrete summary-route configuration (the defaults of
`createAdminApiApp` with no environment overrides). -/
def cfgW : SummaryConfig :=
  { activacionesBucket := "fotos-activaciones"
    storageLimitBytes := some (1 * GB)
    databaseLimitBytes := some (500 * MB)
    storageLimitSource := "supabase_free_default"
    databaseLimitSource := "supabase_free_default" }

/-- A concrete backend outcome where the mandatory reads succeed while
both the rpc size probe and the estimator run fail. -/
def backendW : SummaryBackend :=
  { activacionesCountRes := .ok (some 5)
    activacionesWithPhotoCountRes := .ok (some 3)
    bucketScanRes := .ok (1000, 3)
    databaseSizeRpcRes := .error "rpc failed"
    estimateRes := .error "sample failed" }

theorem collectPagesFuel_eq (limit : ℕ) (hl : 0 < limit) :
    ∀ fuel rest, rest.length < fuel → collectPagesFuel limit fuel rest = rest := by
  intro fuel
  induction fuel with
  | zero => intro rest h; omega
  | succ n ih =>
    intro rest h
    rw [collectPagesFuel]
    by_cases h1 : rest.take limit = []
    · simp only [h1, if_pos]
      rcases List.take_eq_nil_iff.mp h1 with h' | h'
      · omega
      · exact h'.symm
    · rw [if_neg h1]
      by_cases h2 : (rest.take limit).length < limit
      · rw [if_pos h2]
        have : rest.length < limit := by
          rw [List.length_take] at h2; omega
        exact List.take_of_length_le (le_of_lt this)
      · rw [if_neg h2]
        rw [List.length_take] at h2
        have hrl : limit ≤ rest.length := by omega
        have hdrop : (rest.drop limit).length < n := by
          rw [List.length_drop]; omega
        rw [ih (rest.drop limit) hdrop]
        exact List.take_append_drop limit rest

theorem collectPages_eq (limit : ℕ) (hl : 0 < limit) (items : List StorageItem) :
    collectPages limit items = items :=
  collectPagesFuel_eq limit hl (items.length + 1) items (by omega)

/-- The `limitingFactor` computation of the projector, read off the two
`remaining-by` fields of its own result. -/
lemma projector_limiting_factor_eq (i : ProjInput) :
    (estimateCombinedActivationCapacity i).limiting_factor =
      match (estimateCombinedActivationCapacity i).estimated_remaining_by_database,
            (estimateCombinedActivationCapacity i).estimated_remaining_by_storage with
      | some d, some s => some (if s ≤ d then "storage" else "database")
      | none, some _ => some "storage"
      | some _, none => some "database"
      | none, none => none := rfl

/-- C1, counterexample: calling the capacity projector with every
optional argument null and all counts zero yields `limiting_factor =
null` (modelled `none`), not the string `"none"` the claim requires. -/
theorem projector_all_null_limiting_factor_counterexample :
    (estimateCombinedActivationCapacity projNullInput).limiting_factor = none ∧
    (estimateCombinedActivationCapacity projNullInput).limiting_factor ≠ some "none" := by
  exact ⟨rfl, by decide⟩

/-- C1 (amended): with every optional argument null and the three counts
zero, the projector does not throw (it is a total function in this
model) and returns `estimated_remaining`, `remaining_by_database`,
`remaining_by_storage` and `average_attachment_bytes` all null and
`limiting_factor = null`; moreover `limiting_factor` is always one of
null, `"storage"`, `"database"`. -/
theorem projector_all_null_degrades :
    (estimateCombinedActivationCapacity projNullInput =
      { one_photo_per_activation_assumed := true
        activaciones_with_photo_count := 0
        photo_coverage_percent := none
        sample_photos_count := 0
        average_photo_bytes := none
        per_activation_database_estimated_bytes := none
        per_activation_total_estimated_bytes := none
        estimated_activaciones_with_photo_total := none
        estimated_activaciones_with_photo_remaining := none
        estimated_remaining_by_database := none
        estimated_remaining_by_storage := none
        limiting_factor := none
        unavailable_reason := some "Sin muestra de fotos para calcular promedio. Sin muestra suficiente para calcular peso de activacion en base de datos." }) ∧
    ∀ i : ProjInput,
      (estimateCombinedActivationCapacity i).limiting_factor = none ∨
      (estimateCombinedActivationCapacity i).limiting_factor = some "storage" ∨
      (estimateCombinedActivationCapacity i).limiting_factor = some "database" := by
  refine ⟨rfl, ?_⟩
  intro i
  rw [projector_limiting_factor_eq]
  rcases (estimateCombinedActivationCapacity i).estimated_remaining_by_database with _ | d <;>
    rcases (estimateCombinedActivationCapacity i).estimated_remaining_by_storage with _ | s <;>
    simp
  exact le_or_lt s d

/-- C7: when both remaining-by figures are non-null, the limiting factor
is `"storage"` exactly when `remaining_by_storage ≤ remaining_by_database`
and `"database"` otherwise; when only one figure is non-null, the factor
names that resource.  The hypothesis `hp` keeps the (only) division of
`remainingByDatabase` inside the modelled domain: the per-unit input, when
given, rounds to a positive divisor — every call in the source passes
either `null` or an integer at least `1`. -/
theorem limiting_factor_policy (i : ProjInput)
    (hp : ∀ q, i.perActivationDatabaseBytes = some q → q ≤ 0 ∨ 1/2 ≤ q) :
    (∀ d s, (estimateCombinedActivationCapacity i).estimated_remaining_by_database = some d →
      (estimateCombinedActivationCapacity i).estimated_remaining_by_storage = some s →
      (estimateCombinedActivationCapacity i).limiting_factor =
        some (if s ≤ d then "storage" else "database")) ∧
    (∀ d, (estimateCombinedActivationCapacity i).estimated_remaining_by_database = some d →
      (estimateCombinedActivationCapacity i).estimated_remaining_by_storage = none →
      (estimateCombinedActivationCapacity i).limiting_factor = some "database") ∧
    (∀ s, (estimateCombinedActivationCapacity i).estimated_remaining_by_database = none →
      (estimateCombinedActivationCapacity i).estimated_remaining_by_storage = some s →
      (estimateCombinedActivationCapacity i).limiting_factor = some "storage") := by
  refine ⟨?_, ?_, ?_⟩
  · intro d s hd hs
    rw [projector_limiting_factor_eq, hd, hs]
  · intro d hd hs
    rw [projector_limiting_factor_eq, hd, hs]
  · intro s hd hs
    rw [projector_limiting_factor_eq, hd, hs]

/-- C7, witness: `remaining_by_database = 100` and `remaining_by_storage
= 100` — the tie — yields `limiting_factor = "storage"`. -/
theorem limiting_factor_policy_witness :
    (estimateCombinedActivationCapacity
      ⟨1, 1, 0, some 1, some 100, some 100, some 1⟩).estimated_remaining_by_database = some 100 ∧
    (estimateCombinedActivationCapacity
      ⟨1, 1, 0, some 1, some 100, some 100, some 1⟩).estimated_remaining_by_storage = some 100 ∧
    (estimateCombinedActivationCapacity
      ⟨1, 1, 0, some 1, some 100, some 100, some 1⟩).limiting_factor = some "storage" := by
  have hdb : (estimateCombinedActivationCapacity
      ⟨1, 1, 0, some 1, some 100, some 100, some 1⟩).estimated_remaining_by_database = some 100 := by
    norm_num [estimateCombinedActivationCapacity, jsNum, jround, max_def, min_def]
  have hst : (estimateCombinedActivationCapacity
      ⟨1, 1, 0, some 1, some 100, some 100, some 1⟩).estimated_remaining_by_storage = some 100 := by
    norm_num [estimateCombinedActivationCapacity, jsNum, jround, max_def, min_def]
  have h := (limiting_factor_policy ⟨1, 1, 0, some 1, some 100, some 100, some 1⟩
    (by intro q hq; injection hq with h'; right; rw [← h']; norm_num)).1 100 100 hdb hst
  refine ⟨hdb, hst, ?_⟩
  simpa using h

/-- Values of the form `Option.map (fun a => max 0 (g a)) x` are
non-negative when present. -/
lemma option_map_max0_nonneg {α : Type} (x : Option α) (g : α → ℤ) (d : ℤ)
    (h : x.map (fun a => max 0 (g a)) = some d) : 0 ≤ d := by
  obtain ⟨a, -, hval⟩ := Option.map_eq_some'.mp h
  rw [← hval]
  exact le_max_left _ _

/-- The `estimatedRemaining` computation of the projector, read off the
two `remaining-by` fields of its own result. -/
lemma projector_remaining_eq (i : ProjInput) :
    (estimateCombinedActivationCapacity i).estimated_activaciones_with_photo_remaining =
      match (estimateCombinedActivationCapacity i).estimated_remaining_by_database,
            (estimateCombinedActivationCapacity i).estimated_remaining_by_storage with
      | some d, some s => some (min d s)
      | some d, none => some d
      | none, s => s := rfl

/-- The `estimatedTotal` computation of the projector, read off the
remaining field of its own result. -/
lemma projector_total_eq (i : ProjInput) :
    (estimateCombinedActivationCapacity i).estimated_activaciones_with_photo_total =
      (estimateCombinedActivationCapacity i).estimated_activaciones_with_photo_remaining.map
        (fun rm => max (max 0 i.activacionesCount) (max 0 i.activacionesCount + (rm : ℚ))) := rfl

/-- C10: the projector's `remaining_by_database`, `remaining_by_storage`
and `estimated_remaining` outputs are non-negative integers whenever
non-null, and `estimated_total`, when non-null, is at least the
normalized activation count `max 0 activacionesCount`.  `hp` as in
`limiting_factor_policy`. -/
theorem projector_outputs_nonnegative (i : ProjInput)
    (hp : ∀ q, i.perActivationDatabaseBytes = some q → q ≤ 0 ∨ 1/2 ≤ q) :
    (∀ d, (estimateCombinedActivationCapacity i).estimated_remaining_by_database = some d →
      0 ≤ d) ∧
    (∀ s, (estimateCombinedActivationCapacity i).estimated_remaining_by_storage = some s →
      0 ≤ s) ∧
    (∀ rm, (estimateCombinedActivationCapacity i).estimated_activaciones_with_photo_remaining =
      some rm → 0 ≤ rm) ∧
    (∀ t, (estimateCombinedActivationCapacity i).estimated_activaciones_with_photo_total =
      some t → max 0 i.activacionesCount ≤ t) := by
  have hdb : ∀ d, (estimateCombinedActivationCapacity i).estimated_remaining_by_database =
      some d → 0 ≤ d := fun d hd => option_map_max0_nonneg _ _ d hd
  have hst : ∀ s, (estimateCombinedActivationCapacity i).estimated_remaining_by_storage =
      some s → 0 ≤ s := fun s hs => option_map_max0_nonneg _ _ s hs
  have hrem : ∀ rm, (estimateCombinedActivationCapacity i).estimated_activaciones_with_photo_remaining =
      some rm → 0 ≤ rm := by
    intro rm h
    rw [projector_remaining_eq] at h
    rcases hd : (estimateCombinedActivationCapacity i).estimated_remaining_by_database with _ | d <;>
      rcases hs : (estimateCombinedActivationCapacity i).estimated_remaining_by_storage with _ | s <;>
      rw [hd, hs] at h <;> simp at h
    · rw [← h]; exact hst s hs
    · rw [← h]; exact hdb d hd
    · rw [← h]
      exact le_min (hdb d hd) (hst s hs)
  refine ⟨hdb, hst, hrem, ?_⟩
  intro t h
  rw [projector_total_eq] at h
  obtain ⟨rm, hrm, hval⟩ := Option.map_eq_some'.mp h
  rw [← hval]
  exact le_max_left _ _

/-- C10, witness: a concrete input whose remaining figures are `100` and
whose total `102` dominates the activation count `2`. -/
theorem projector_outputs_nonnegative_witness :
    (estimateCombinedActivationCapacity
      ⟨2, 1, 0, some 1, some 100, some 100, some 1⟩).estimated_activaciones_with_photo_total =
      some 102 ∧ max 0 (2 : ℚ) ≤ 102 := by
  have htot : (estimateCombinedActivationCapacity
      ⟨2, 1, 0, some 1, some 100, some 100, some 1⟩).estimated_activaciones_with_photo_total =
      some 102 := by
    norm_num [estimateCombinedActivationCapacity, jsNum, jround, max_def, min_def]
  refine ⟨htot, ?_⟩
  exact (projector_outputs_nonnegative ⟨2, 1, 0, some 1, some 100, some 100, some 1⟩
    (by intro q hq; injection hq with h'; right; rw [← h']; norm_num)).2.2.2 102 htot

/-- C5: with `total_row_count = 500`, a 240-row sample of exactly 1000
serialized bytes each (average 1000), `overhead_factor = 1.34 = 67/50`
and `byte_limit = 500000000`, the estimator returns
`per_row_estimated_bytes = 1340`, `estimated_used_bytes = 670000`,
`estimated_capacity_total = 373134` and
`estimated_capacity_remaining = 372634`. -/
theorem estimator_example_figures :
    estimateDatabaseUsageFromActivaciones 500 (some 500000000)
      (.ok (List.replicate 240 1000)) (67/50) = .ok
      { sample_size := 240
        overhead_factor := 67/50
        per_activation_estimated_bytes := 1340
        estimated_database_used_bytes := 670000
        estimated_database_remaining_bytes := some 499330000
        estimated_database_usage_percent := some (13/100)
        estimated_activaciones_capacity_total := some 373134
        estimated_activaciones_capacity_remaining := some 372634 } := by
  have hsum : (List.map (fun n : ℕ => (n : ℚ)) (List.replicate 240 1000)).sum = 240000 := by
    rw [List.map_replicate, List.sum_replicate, nsmul_eq_mul]
    norm_num
  unfold estimateDatabaseUsageFromActivaciones
  simp only [hsum]
  norm_num [jround, round2, max_def, min_def]

/-- C6: with a non-positive row count the estimator never consults the
sample read (the result holds for an arbitrary `sampleFetch` outcome,
including a failed one — so it cannot throw), and returns the zeroed
estimate: `sample_size = 0`, `per_row = 0`, `used = 0`, remaining equal
to the full (non-negative) byte limit or null, percent `0` or null, and
both capacity fields null. -/
theorem estimator_degenerate (count : ℚ) (hc : count ≤ 0) (L : Option ℚ)
    (hL : ∀ q, L = some q → 0 ≤ q) (sampleFetch : Except String (List ℕ)) (f : ℚ) :
    estimateDatabaseUsageFromActivaciones count L sampleFetch f = .ok
      { sample_size := 0
        overhead_factor := f
        per_activation_estimated_bytes := 0
        estimated_database_used_bytes := 0
        estimated_database_remaining_bytes := L
        estimated_database_usage_percent := L.map (fun _ => 0)
        estimated_activaciones_capacity_total := none
        estimated_activaciones_capacity_remaining := none } := by
  unfold estimateDatabaseUsageFromActivaciones
  rw [if_pos hc]
  unfold zeroDbEstimate
  cases L with
  | none => rfl
  | some l =>
    have h0 : max 0 l = l := max_eq_right (hL l rfl)
    simp [h0]

/-- C6, witness: `count = 0`, limit `10`, failed sample read. -/
theorem estimator_degenerate_witness :
    estimateDatabaseUsageFromActivaciones 0 (some 10) (.error "query failed") (67/50) = .ok
      { sample_size := 0
        overhead_factor := 67/50
        per_activation_estimated_bytes := 0
        estimated_database_used_bytes := 0
        estimated_database_remaining_bytes := some 10
        estimated_database_usage_percent := some 0
        estimated_activaciones_capacity_total := none
        estimated_activaciones_capacity_remaining := none } := by
  have h := estimator_degenerate 0 (by norm_num) (some 10)
    (fun q hq => by injection hq with h'; rw [← h']; norm_num) (.error "query failed") (67/50)
  simpa using h

/-- `Math.round` is monotone. -/
lemma jround_mono {a b : ℚ} (h : a ≤ b) : jround a ≤ jround b :=
  Int.floor_mono (by linarith)

/-- C8, counterexample: for the fixed one-row sample `[1]` (average
serialized size 1 byte) and `total_row_count = 1`, the overhead factors
`1 < 11/10` produce the same `per_row_estimated_bytes = 1` and the same
`estimated_used_bytes = 1` — rounding makes the increase non-strict. -/
theorem overhead_monotonicity_not_strict :
    (1 : ℚ) < 11/10 ∧
    (estimateDatabaseUsageFromActivaciones 1 none (.ok [1]) 1).map
      (fun e => (e.per_activation_estimated_bytes, e.estimated_database_used_bytes)) =
      .ok (1, 1) ∧
    (estimateDatabaseUsageFromActivaciones 1 none (.ok [1]) (11/10)).map
      (fun e => (e.per_activation_estimated_bytes, e.estimated_database_used_bytes)) =
      .ok (1, 1) := by
  refine ⟨by norm_num, ?_, ?_⟩ <;>
  · unfold estimateDatabaseUsageFromActivaciones
    norm_num [jround, max_def, Except.map]

/-- C8 (amended): for a fixed non-empty sample, positive count and
`0 ≤ f1 ≤ f2`, the estimator's `per_row_estimated_bytes` and
`estimated_used_bytes` are monotone (non-strictly) in the overhead
factor; strictness fails in general because of rounding. -/
theorem overhead_factor_monotone (sample : List ℕ) (hs : sample ≠ [])
    (count : ℚ) (hc : 0 < count) (L : Option ℚ) (f1 f2 : ℚ)
    (h0 : 0 ≤ f1) (hf : f1 ≤ f2) :
    ∃ e1 e2,
      estimateDatabaseUsageFromActivaciones count L (.ok sample) f1 = .ok e1 ∧
      estimateDatabaseUsageFromActivaciones count L (.ok sample) f2 = .ok e2 ∧
      e1.per_activation_estimated_bytes ≤ e2.per_activation_estimated_bytes ∧
      e1.estimated_database_used_bytes ≤ e2.estimated_database_used_bytes := by
  have havg : 0 ≤ (List.map (fun n : ℕ => (n : ℚ)) sample).sum / sample.length := by
    apply div_nonneg
    · apply List.sum_nonneg
      intro x hx
      simp only [List.mem_map] at hx
      obtain ⟨n, -, rfl⟩ := hx
      positivity
    · positivity
  obtain ⟨e1, he1, hp1, hu1⟩ : ∃ e1,
      estimateDatabaseUsageFromActivaciones count L (.ok sample) f1 = .ok e1 ∧
      e1.per_activation_estimated_bytes =
        max 1 (jround ((List.map (fun n : ℕ => (n : ℚ)) sample).sum / sample.length * f1)) ∧
      e1.estimated_database_used_bytes =
        jround ((max 1 (jround ((List.map (fun n : ℕ => (n : ℚ)) sample).sum / sample.length * f1)) : ℤ) * count) := by
    unfold estimateDatabaseUsageFromActivaciones
    rw [if_neg (not_le.mpr hc)]
    dsimp only
    rw [if_neg hs]
    exact ⟨_, rfl, rfl, rfl⟩
  obtain ⟨e2, he2, hp2, hu2⟩ : ∃ e2,
      estimateDatabaseUsageFromActivaciones count L (.ok sample) f2 = .ok e2 ∧
      e2.per_activation_estimated_bytes =
        max 1 (jround ((List.map (fun n : ℕ => (n : ℚ)) sample).sum / sample.length * f2)) ∧
      e2.estimated_database_used_bytes =
        jround ((max 1 (jround ((List.map (fun n : ℕ => (n : ℚ)) sample).sum / sample.length * f2)) : ℤ) * count) := by
    unfold estimateDatabaseUsageFromActivaciones
    rw [if_neg (not_le.mpr hc)]
    dsimp only
    rw [if_neg hs]
    exact ⟨_, rfl, rfl, rfl⟩
  have hper : e1.per_activation_estimated_bytes ≤ e2.per_activation_estimated_bytes := by
    rw [hp1, hp2]
    exact max_le_max le_rfl (jround_mono (mul_le_mul_of_nonneg_left hf havg))
  refine ⟨e1, e2, he1, he2, hper, ?_⟩
  rw [hu1, hu2]
  apply jround_mono
  apply mul_le_mul_of_nonneg_right _ hc.le
  rw [← hp1, ← hp2]
  exact_mod_cast hper

/-- C8 (amended), witness: sample `[1]`, count `1`, factors `1 ≤ 2`. -/
theorem overhead_factor_monotone_witness :
    ∃ e1 e2,
      estimateDatabaseUsageFromActivaciones 1 none (.ok [1]) 1 = .ok e1 ∧
      estimateDatabaseUsageFromActivaciones 1 none (.ok [1]) 2 = .ok e2 ∧
      e1.per_activation_estimated_bytes ≤ e2.per_activation_estimated_bytes ∧
      e1.estimated_database_used_bytes ≤ e2.estimated_database_used_bytes :=
  overhead_factor_monotone [1] (by simp) 1 (by norm_num) none 1 2 (by norm_num) (by norm_num)

/-- C3, counterexample: a file whose `size` metadata key is present but
non-numeric while `contentLength` holds `100` contributes `0` bytes —
the `??` chain selects the first present candidate regardless of
numeric validity, so the later finite non-negative candidate is NOT
used (the claim requires `100`).  The third conjunct shows it end to
end: scanning the one-file bucket `listingC3` yields `totalBytes = 0`
(and still counts the object). -/
theorem size_candidate_masking_counterexample :
    itemSizeBytes (some { size := .vbad, contentLength := .vnum 100, content_length := .vnull }) = 0 ∧
    itemSizeBytes (some { size := .vnull, contentLength := .vnum 100, content_length := .vnull }) = 100 ∧
    calculateBucketUsageBytes listingC3 2 = some ([""], 0, 1) := by
  refine ⟨rfl, rfl, ?_⟩
  have i1 : ∀ acc : List String × ℚ × ℕ,
      itemStep "" [""] acc
        { name := "photo.jpg", id := some "object-1",
          metadata := some { size := .vbad, contentLength := .vnum 100, content_length := .vnull } } =
        (acc.1, acc.2.1 + 0, acc.2.2 + 1) := fun acc => rfl
  simp [calculateBucketUsageBytes, scanLoop, collectPages, collectPagesFuel,
    processItems, listingC3]
  simp only [i1]
  norm_num

/-- C3 (amended): the scanner consults the ordered candidate list
`size`, `contentLength`, `content_length` by nullish-coalescing: the
first PRESENT (non-nullish) candidate is selected regardless of its
numeric validity, masking the later candidates; the selected value is
added exactly when its numeric conversion is finite and strictly
positive, and a present non-finite first candidate contributes `0`. -/
theorem size_candidate_first_present (m : StorageMetadata) :
    (m.size ≠ .vnull → ∀ v2 v3,
      itemSizeBytes (some { size := m.size, contentLength := v2, content_length := v3 }) =
        itemSizeBytes (some m)) ∧
    (m.size = .vnull → m.contentLength ≠ .vnull → ∀ v3,
      itemSizeBytes (some { size := .vnull, contentLength := m.contentLength, content_length := v3 }) =
        itemSizeBytes (some m)) ∧
    (∀ s, sizeCandidate (some m) = .vnum s → 0 < s → itemSizeBytes (some m) = s) ∧
    (m.size = .vbad → itemSizeBytes (some m) = 0) := by
  obtain ⟨ms, mc, mcc⟩ := m
  refine ⟨?_, ?_, ?_, ?_⟩
  · intro h v2 v3
    cases ms with
    | vnull => exact absurd rfl h
    | vnum q => rfl
    | vbad => rfl
  · intro h1 h2 v3
    cases ms with
    | vnum q => exact absurd h1 (by simp)
    | vbad => exact absurd h1 (by simp)
    | vnull =>
      cases mc with
      | vnull => exact absurd rfl h2
      | vnum q => rfl
      | vbad => rfl
  · intro s hs hpos
    unfold itemSizeBytes
    rw [hs]
    simp [jsToFiniteNumber, hpos]
  · intro h
    cases ms with
    | vbad => rfl
    | vnull => exact absurd h (by simp)
    | vnum q => exact absurd h (by simp)

/-- C3 (amended), witness: a present finite positive first candidate
(`size = 7`) is the size added, whatever the later candidates hold. -/
theorem size_candidate_first_present_witness :
    itemSizeBytes
      (some { size := JsVal.vnum 7, contentLength := JsVal.vbad, content_length := JsVal.vnull }) =
      7 :=
  (size_candidate_first_present
    { size := JsVal.vnum 7, contentLength := JsVal.vbad, content_length := JsVal.vnull }).2.2.1
    7 rfl (by norm_num)

/-- C9, counterexample: when the root listing reports the directory
entry `"a"` twice, the enqueue step of the scan pushes `"a"` twice —
the visited-set (which only grows at dequeue time) does not prevent
duplicate enqueues, only duplicate processing. -/
theorem duplicate_enqueue_counterexample :
    (processItems "" [""]
      [{ name := "a", id := none, metadata := none },
       { name := "a", id := none, metadata := none }]).1 = ["a", "a"] ∧
    ¬ (processItems "" [""]
      [{ name := "a", id := none, metadata := none },
       { name := "a", id := none, metadata := none }]).1.Nodup := by
  have i1 : ∀ acc : List String × ℚ × ℕ,
      itemStep "" [""] acc { name := "a", id := none, metadata := none } =
        (acc.1 ++ ["a"], acc.2.1, acc.2.2) := fun acc => rfl
  have h : (processItems "" [""]
      [{ name := "a", id := none, metadata := none },
       { name := "a", id := none, metadata := none }]).1 = ["a", "a"] := by
    simp [processItems, i1]
  refine ⟨h, ?_⟩
  rw [h]
  decide

/-- The visited list produced by `scanLoop` stays duplicate-free: a
directory already in the visited-set is skipped at dequeue time, and a
directory is added to the set exactly when it is processed. -/
lemma scanLoop_nodup (listing : String → List StorageItem) :
    ∀ (fuel : ℕ) (queue visited : List String) (totalBytes : ℚ) (totalObjects : ℕ)
      (visitedOut : List String) (tb : ℚ) (tob : ℕ),
      visited.Nodup →
      scanLoop listing fuel queue visited totalBytes totalObjects = some (visitedOut, tb, tob) →
      visitedOut.Nodup := by
  intro fuel
  induction fuel with
  | zero =>
    intro q v tb to' vout tb' tob hv h
    cases q with
    | nil =>
      simp only [scanLoop, Option.some.injEq, Prod.mk.injEq] at h
      rw [← h.1]
      exact hv
    | cons a as =>
      rw [scanLoop] at h
      exact Option.noConfusion h
  | succ n ih =>
    intro q v tb to' vout tb' tob hv h
    cases q with
    | nil =>
      simp only [scanLoop, Option.some.injEq, Prod.mk.injEq] at h
      rw [← h.1]
      exact hv
    | cons d rest =>
      rw [scanLoop] at h
      by_cases hd : d ∈ v
      · rw [if_pos hd] at h
        exact ih rest v tb to' vout tb' tob hv h
      · rw [if_neg hd] at h
        exact ih _ _ _ _ vout tb' tob (List.nodup_cons.mpr ⟨hd, hv⟩) h

/-- C9 (amended): during every bucket scan, each directory path is
PROCESSED (listed) at most once — the visited list of any completed scan
is duplicate-free — although a path may be enqueued more than once. -/
theorem scan_processes_each_directory_at_most_once
    (listing : String → List StorageItem) (fuel : ℕ)
    (visited : List String) (totalBytes : ℚ) (totalObjects : ℕ)
    (h : calculateBucketUsageBytes listing fuel = some (visited, totalBytes, totalObjects)) :
    visited.Nodup :=
  scanLoop_nodup listing fuel [""] [] 0 0 visited totalBytes totalObjects List.nodup_nil h

/-- C9 (amended), witness: the scan of `listingW` (whose root listing
repeats `"a"`) completes with the duplicate-free visited list
`["a", ""]`. -/
theorem scan_processes_each_directory_at_most_once_witness :
    calculateBucketUsageBytes listingW 4 = some (["a", ""], 10, 1) ∧
    (["a", ""] : List String).Nodup := by
  have i1 : ∀ acc : List String × ℚ × ℕ,
      itemStep "" [""] acc { name := "a", id := none, metadata := none } =
        (acc.1 ++ ["a"], acc.2.1, acc.2.2) := fun acc => rfl
  have i2 : ∀ acc : List String × ℚ × ℕ,
      itemStep "a" ["a", ""] acc
        { name := "f.jpg", id := some "object-1",
          metadata := some { size := .vnum 10, contentLength := .vnull, content_length := .vnull } } =
        (acc.1, acc.2.1 + 10, acc.2.2 + 1) := fun acc => rfl
  have n1 : nextDirectoryPath "" (jsTrim "a") = "a" := rfl
  have h : calculateBucketUsageBytes listingW 4 = some (["a", ""], 10, 1) := by
    simp [calculateBucketUsageBytes, scanLoop, collectPages, collectPagesFuel,
      processItems, listingW, n1]
    simp only [i1, i2]
    norm_num
  exact ⟨h, scan_processes_each_directory_at_most_once listingW 4 ["a", ""] 10 1 h⟩

/-- The queue component of one item step: unchanged, or extended by the
item's directory path when that path is classified as a directory and is
not in the visited-set. -/
lemma itemStep_fst (currentDirectory : String) (visited : List String)
    (acc : List String × ℚ × ℕ) (item : StorageItem) :
    (itemStep currentDirectory visited acc item).1 = acc.1 ∨
    ∃ b, dirEntryPath currentDirectory item = some b ∧ b ∉ visited ∧
      (itemStep currentDirectory visited acc item).1 = acc.1 ++ [b] := by
  unfold itemStep dirEntryPath
  dsimp only
  split_ifs with h1 h2 h3 h4
  · exact Or.inl rfl
  · exact Or.inl rfl
  · exact Or.inr ⟨_, rfl, h3, rfl⟩
  · exact Or.inl rfl
  · exact Or.inl rfl

/-- Folding the item step over a listing: the queue grows by at most the
number of directory entries of the listing, and every newly enqueued
path is a directory path of the listing. -/
lemma foldl_itemStep_spec (currentDirectory : String) (visited : List String) :
    ∀ (items : List StorageItem) (acc : List String × ℚ × ℕ),
      ((items.foldl (itemStep currentDirectory visited) acc).1.length ≤
        acc.1.length + (childDirPaths currentDirectory items).length) ∧
      (∀ p, p ∈ (items.foldl (itemStep currentDirectory visited) acc).1 →
        p ∈ acc.1 ∨ p ∈ childDirPaths currentDirectory items) := by
  intro items
  induction items with
  | nil =>
    intro acc
    refine ⟨by simp [childDirPaths], ?_⟩
    intro p hp
    rw [List.foldl_nil] at hp
    exact Or.inl hp
  | cons it rest ih =>
    intro acc
    have hstep := itemStep_fst currentDirectory visited acc it
    have hcons : childDirPaths currentDirectory (it :: rest) =
        match dirEntryPath currentDirectory it with
        | none => childDirPaths currentDirectory rest
        | some b => b :: childDirPaths currentDirectory rest := by
      cases hdi : dirEntryPath currentDirectory it <;>
        simp [childDirPaths, List.filterMap_cons, hdi]
    constructor
    · rw [List.foldl_cons]
      calc (rest.foldl (itemStep currentDirectory visited)
              (itemStep currentDirectory visited acc it)).1.length ≤
            (itemStep currentDirectory visited acc it).1.length +
              (childDirPaths currentDirectory rest).length :=
        (ih _).1
        _ ≤ acc.1.length + (childDirPaths currentDirectory (it :: rest)).length := by
          rcases hstep with he | ⟨b, hb, -, he⟩
          · rw [he, hcons]
            rcases dirEntryPath currentDirectory it with _ | b <;> simp
          · rw [he, hcons, hb]
            simp
            omega
    · intro p hp
      rw [List.foldl_cons] at hp
      rcases (ih _).2 p hp with h' | h'
      · rcases hstep with he | ⟨b, hb, -, he⟩
        · rw [he] at h'
          exact Or.inl h'
        · rw [he] at h'
          rcases List.mem_append.mp h' with h'' | h''
          · exact Or.inl h''
          · right
            rw [hcons, hb]
            simp only [List.mem_singleton] at h''
            rw [h'']
            exact List.mem_cons_self _ _
      · right
        rw [hcons]
        rcases dirEntryPath currentDirectory it with _ | b
        · exact h'
        · exact List.mem_cons_of_mem _ h'

/-- Core termination argument: when every directory path any listing can
report lies in the finite universe `insert "" U`, the scan loop
completes before `scanPotential` many iterations.  Each iteration either
drops an already-visited queue entry (queue shrinks, sum unchanged) or
processes a new directory (its weight leaves the sum, covering the at
most `weight - 1` directories it enqueues). -/
lemma scanLoop_total (listing : String → List StorageItem) (U : Finset String)
    (hU : ∀ d p, p ∈ childDirPaths d (listing d) → p ∈ U) :
    ∀ (fuel : ℕ) (queue visited : List String) (totalBytes : ℚ) (totalObjects : ℕ),
      (∀ p ∈ queue, p ∈ insert "" U) →
      scanPotential listing U queue visited ≤ fuel →
      ∃ r, scanLoop listing fuel queue visited totalBytes totalObjects = some r := by
  intro fuel
  induction fuel with
  | zero =>
    intro q v tb tob hq hpot
    cases q with
    | nil => exact ⟨_, rfl⟩
    | cons d rest =>
      exfalso
      unfold scanPotential at hpot
      simp only [List.length_cons] at hpot
      omega
  | succ n ih =>
    intro q v tb tob hq hpot
    cases q with
    | nil => exact ⟨_, rfl⟩
    | cons d rest =>
      rw [scanLoop]
      by_cases hd : d ∈ v
      · rw [if_pos hd]
        apply ih rest v tb tob (fun p hp => hq p (List.mem_cons_of_mem _ hp))
        unfold scanPotential at hpot ⊢
        simp only [List.length_cons] at hpot
        omega
      · rw [if_neg hd]
        dsimp only
        have hdS : d ∈ insert "" U := hq d (List.mem_cons_self _ _)
        have hdmem : d ∈ (insert "" U) \ v.toFinset :=
          Finset.mem_sdiff.mpr ⟨hdS, fun hc => hd (List.mem_toFinset.mp hc)⟩
        have hsum : dirWeight listing d +
            Finset.sum (((insert "" U) \ v.toFinset).erase d) (dirWeight listing) =
            Finset.sum ((insert "" U) \ v.toFinset) (dirWeight listing) :=
          Finset.add_sum_erase _ _ hdmem
        have herase : (insert "" U) \ (d :: v).toFinset =
            ((insert "" U) \ v.toFinset).erase d := by
          rw [List.toFinset_cons, Finset.sdiff_insert]
        have hspec := foldl_itemStep_spec d (d :: v) (collectPages 1000 (listing d)) ([], 0, 0)
        have hcp : collectPages 1000 (listing d) = listing d :=
          collectPages_eq 1000 (by norm_num) _
        apply ih _ _ _ _ ?_ ?_
        · intro p hp
          rcases List.mem_append.mp hp with h' | h'
          · exact hq p (List.mem_cons_of_mem _ h')
          · rcases hspec.2 p h' with h'' | h''
            · simp at h''
            · rw [hcp] at h''
              exact Finset.mem_insert_of_mem (hU d p h'')
        · unfold scanPotential at hpot ⊢
          rw [herase]
          have hlen : (processItems d (d :: v) (collectPages 1000 (listing d))).1.length ≤
              (childDirPaths d (listing d)).length := by
            have h1 := hspec.1
            rw [hcp] at h1
            simpa [processItems, hcp] using h1
          have hw : dirWeight listing d = 1 + (childDirPaths d (listing d)).length := rfl
          simp only [List.length_cons, List.length_append] at hpot ⊢
          omega

/-- C2: whenever the storage backend's listings only ever name
directory paths from some finite universe `U` (true of every real
bucket, however its pages repeat or self-reference entries), the bucket
scan terminates — some finite fuel completes it — and the completed
scan's visited list is duplicate-free: each distinct directory path is
listed at most once. -/
theorem bucket_scan_terminates (listing : String → List StorageItem) (U : Finset String)
    (hU : ∀ d p, p ∈ childDirPaths d (listing d) → p ∈ U) :
    ∃ fuel visited totalBytes totalObjects,
      calculateBucketUsageBytes listing fuel = some (visited, totalBytes, totalObjects) ∧
      visited.Nodup := by
  obtain ⟨r, hr⟩ := scanLoop_total listing U hU
    (scanPotential listing U [""] []) [""] [] 0 0
    (fun p hp => by
      simp only [List.mem_singleton] at hp
      rw [hp]
      exact Finset.mem_insert_self _ _)
    le_rfl
  obtain ⟨vis, tb, tob⟩ := r
  exact ⟨scanPotential listing U [""] [], vis, tb, tob, hr,
    scanLoop_nodup listing _ [""] [] 0 0 vis tb tob List.nodup_nil hr⟩

/-- C2, witness: the scan of `listingW` — whose root listing repeats the
directory entry `"a"` — terminates; its directory paths all lie in the
one-element universe containing `"a"`. -/
theorem bucket_scan_terminates_witness :
    ∃ fuel visited totalBytes totalObjects,
      calculateBucketUsageBytes listingW fuel = some (visited, totalBytes, totalObjects) ∧
      visited.Nodup :=
  bucket_scan_terminates listingW {"a"} (by
    intro d p hp
    by_cases h0 : d = ""
    · subst h0
      have hlist : childDirPaths "" (listingW "") = ["a", "a"] := rfl
      rw [hlist] at hp
      simp at hp
      simp [hp]
    · by_cases h1 : d = "a"
      · subst h1
        have hlist : childDirPaths "a" (listingW "a") = [] := rfl
        rw [hlist] at hp
        simp at hp
      · have hnil : listingW d = [] := by
          unfold listingW
          rw [if_neg h0, if_neg h1]
        rw [hnil] at hp
        simp [childDirPaths] at hp)

/-- C4: the summary assembly fails (with a `jsonError`) exactly when a
mandatory count or the bucket scan fails; a failed database-size probe
or a thrown estimator run is non-fatal — the summary is still returned,
with the corresponding field null and the failure message recorded in
`database_size_unavailable_reason` /
`database_estimation_unavailable_reason` respectively. -/
theorem summary_failure_semantics (cfg : SummaryConfig) (b : SummaryBackend) :
    ((∃ err, storageSummaryHandler cfg b = .error err) ↔
      (∃ e, b.activacionesCountRes = .error e) ∨
      (∃ e, b.activacionesWithPhotoCountRes = .error e) ∨
      (∃ e, b.bucketScanRes = .error e)) ∧
    (∀ s, storageSummaryHandler cfg b = .ok s →
      (∀ e, b.databaseSizeRpcRes = .error e →
        s.database_size_bytes = none ∧ s.database_size_unavailable_reason = some e) ∧
      (∀ e, b.estimateRes = .error e →
        s.database_estimation = none ∧ s.database_estimation_unavailable_reason = some e)) := by
  obtain ⟨c1, c2, c3, c4, c5⟩ := b
  cases c1 <;> cases c2 <;> cases c3 <;> cases c4 <;> cases c5 <;>
    simp [storageSummaryHandler]

/-- C4, witness: with succeeding counts and scan but a failed rpc probe
and a failed estimator run, the request still returns a summary whose
size and estimation fields are null with the two reasons recorded. -/
theorem summary_failure_semantics_witness :
    (storageSummaryHandler cfgW backendW).map
      (fun s => (s.database_size_bytes, s.database_size_unavailable_reason,
        s.database_estimation, s.database_estimation_unavailable_reason)) =
      .ok (none, some "rpc failed", none, some "sample failed") := by
  obtain ⟨s, hs⟩ : ∃ s, storageSummaryHandler cfgW backendW = .ok s := ⟨_, rfl⟩
  have h := (summary_failure_semantics cfgW backendW).2 s hs
  have h1 := h.1 "rpc failed" rfl
  have h2 := h.2 "sample failed" rfl
  rw [hs]
  simp [Except.map, h1.1, h1.2, h2.1, h2.2]
